import Mathlib

/-!
Verification of the OmniSupport chat-widget session synchronization engine.

The definitions below are a shallow embedding of the widget source:
the zustand store actions in widget.store (sendMessage, addMessage,
loadMessages, startMessagePolling, init), the WebSocketManager
(connect, doConnect, disconnect, scheduleReconnect, ping timers),
the safe localStorage wrapper, the typing-debounce handler in
MessageInput, and the prechat gating in ChatPage.
-/

namespace OmniSupport

/-! ## Data model -/

/-- Message content, mirroring the content object of the Message type:
optional text, url and fileName fields. -/
structure MessageContent where
  text : Option String
  url : Option String
  fileName : Option String
deriving DecidableEq, Repr

/-- A chat message as held in the widget store. createdAt is the ISO
timestamp string the source stores. -/
structure Message where
  id : String
  senderType : String
  contentType : String
  content : MessageContent
  createdAt : String
deriving DecidableEq, Repr

/-- The slice of the widget store state the message synchronizer mutates. -/
structure SessionState where
  messages : List Message
  isSending : Bool
  error : Option String
deriving DecidableEq, Repr

/-- The initial store state: no messages, not sending, no error. -/
def initialSession : SessionState :=
  { messages := [], isSending := false, error := none }

/-- Ids of the messages in a list, in order. -/
def msgIds (msgs : List Message) : List String :=
  msgs.map Message.id

/-! ## Message synchronizer operations (widget.store) -/

/-- The optimistic message sendMessage constructs: temporary id,
senderType customer, contentType text. -/
def optimisticMessage (tempId content now : String) : Message :=
  { id := tempId
    senderType := "customer"
    contentType := "text"
    content := { text := some content, url := none, fileName := none }
    createdAt := now }

/-- First half of sendMessage: append the optimistic message and set
isSending, exactly as the set call before the await. -/
def sendMessageAppend (s : SessionState) (tempId content now : String) :
    SessionState :=
  { s with
    messages := s.messages ++ [optimisticMessage tempId content now]
    isSending := true }

/-- Success branch of sendMessage: map over the list replacing the entry
whose id equals the temporary id with the same entry carrying the
server-issued id and timestamp; clear isSending. -/
def confirmMessage (s : SessionState) (tempId serverId serverCreatedAt : String) :
    SessionState :=
  { s with
    messages := s.messages.map (fun m =>
      if m.id = tempId then { m with id := serverId, createdAt := serverCreatedAt } else m)
    isSending := false }

/-- Catch branch of sendMessage: filter out the entry with the temporary
id, clear isSending, record the error message. -/
def sendMessageFailure (s : SessionState) (tempId errMsg : String) :
    SessionState :=
  { s with
    messages := s.messages.filter (fun m => m.id ≠ tempId)
    isSending := false
    error := some errMsg }

/-- addMessage from the store: if some existing entry shares the incoming
id the state is returned unchanged, otherwise the message is appended. -/
def addMessage (s : SessionState) (message : Message) : SessionState :=
  if s.messages.any (fun m => m.id = message.id) then s
  else { s with messages := s.messages ++ [message] }

/-- loadMessages success: the fetched list replaces the local list
wholesale. -/
def loadMessagesSuccess (s : SessionState) (fetched : List Message) :
    SessionState :=
  { s with messages := fetched }

/-- One tick of startMessagePolling: replace the local list with the
fetched one only when the fetched list is strictly longer. -/
def pollTick (s : SessionState) (fetched : List Message) : SessionState :=
  if fetched.length > s.messages.length then { s with messages := fetched } else s

/-! ## Interleaved synchronizer traces -/

/-- One step of an interleaved trace: an optimistic send (the append half
of sendMessage), a send confirmation (its success branch), an incoming
transport push (addMessage), or a refresh that replaces the list
wholesale (loadMessages, or a poll tick that found a longer list). -/
inductive SyncOp where
  | send (tempId content now : String)
  | confirm (tempId serverId serverCreatedAt : String)
  | push (message : Message)
  | refresh (fetched : List Message)
deriving DecidableEq, Repr

/-- Apply one trace step to the session state. -/
def applyOp (s : SessionState) : SyncOp → SessionState
  | .send t c n => sendMessageAppend s t c n
  | .confirm t i ca => confirmMessage s t i ca
  | .push m => addMessage s m
  | .refresh l => loadMessagesSuccess s l

/-- Run a whole trace from a starting state. -/
def runOps (s : SessionState) (ops : List SyncOp) : SessionState :=
  ops.foldl applyOp s

/-- Boolean duplicate-freedom of a list of ids. -/
def nodupB : List String → Bool
  | [] => true
  | x :: xs => !xs.contains x && nodupB xs

/-- Environment assumptions along a trace: every optimistic send uses a
temporary id not currently in the list (crypto.randomUUID freshness),
every refresh delivers a server list that is itself duplicate-free, and
every confirmation's server id is absent from the list at the moment the
confirmation applies. -/
def admissibleFrom (s : SessionState) : List SyncOp → Bool
  | [] => true
  | op :: rest =>
    (match op with
     | .send t _ _ => !(msgIds s.messages).contains t
     | .confirm _ i _ => !(msgIds s.messages).contains i
     | .push _ => true
     | .refresh l => nodupB (msgIds l)) && admissibleFrom (applyOp s op) rest

/-! ## WebSocket manager (WebSocketManager) -/

/-- Constructor options of WebSocketManager with their defaults. -/
structure WSOptions where
  reconnectDelay : Nat
  maxReconnectAttempts : Nat
  pingInterval : Nat
deriving DecidableEq, Repr

/-- The default options: base delay 1000 ms, 10 attempts, 30 s ping. -/
def defaultWSOptions : WSOptions :=
  { reconnectDelay := 1000, maxReconnectAttempts := 10, pingInterval := 30000 }

/-- Mutable fields of WebSocketManager. wsPresent models this.ws being
non-null (the socket object is retained even after it closes); wsOpen
models readyState OPEN. -/
structure WSState where
  wsPresent : Bool
  wsOpen : Bool
  conversationId : Option String
  reconnectAttempts : Nat
  reconnectTimeoutSet : Bool
  pingTimeoutSet : Bool
  isConnecting : Bool
  shouldReconnect : Bool
deriving DecidableEq, Repr

/-- Field initializers of a freshly constructed manager. -/
def idleWS : WSState :=
  { wsPresent := false, wsOpen := false, conversationId := none
    reconnectAttempts := 0, reconnectTimeoutSet := false, pingTimeoutSet := false
    isConnecting := false, shouldReconnect := true }

/-- The disconnect method: stop the ping interval, clear any pending
reconnect timer, close and drop the socket, reset the conversation id
and the attempt counter, and forbid reconnection. isConnecting is not
touched by the source. -/
def wsDisconnect (s : WSState) : WSState :=
  { wsPresent := false, wsOpen := false, conversationId := none
    reconnectAttempts := 0, reconnectTimeoutSet := false, pingTimeoutSet := false
    isConnecting := s.isConnecting, shouldReconnect := false }

/-- The doConnect method up to socket construction: bail out when no
conversation id is set or a connection attempt is already running,
otherwise mark the manager connecting and hold a fresh (not yet open)
socket object. -/
def wsDoConnect (s : WSState) : WSState :=
  if s.conversationId.isNone || s.isConnecting then s
  else { s with isConnecting := true, wsPresent := true, wsOpen := false }

/-- The connect method: return unchanged when isConnecting is set or a
socket object for the same conversation id is held; otherwise disconnect,
store the new id, re-enable reconnection and start connecting. -/
def wsConnect (s : WSState) (conversationId : String) : WSState :=
  if s.isConnecting || (s.wsPresent && s.conversationId == some conversationId) then s
  else
    let s1 := wsDisconnect s
    wsDoConnect { s1 with conversationId := some conversationId, shouldReconnect := true }

/-- Outcome of one scheduleReconnect call: either a reconnect timer with
the computed delay, or the terminal reconnect_failed event. -/
inductive ReconnectResult where
  | scheduled (delay : Nat)
  | reconnectFailed
deriving DecidableEq, Repr

/-- The scheduleReconnect method: when the attempt counter has reached
maxReconnectAttempts (or reconnection is disabled) emit reconnect_failed
and schedule nothing; otherwise schedule a timer for
min(reconnectDelay * 2 ^ attempts, 30000) ms. -/
def scheduleReconnect (opts : WSOptions) (attempts : Nat) (shouldReconnect : Bool) :
    ReconnectResult :=
  if opts.maxReconnectAttempts ≤ attempts || !shouldReconnect then .reconnectFailed
  else .scheduled (min (opts.reconnectDelay * 2 ^ attempts) 30000)

/-- A run of n consecutive connection failures starting with the given
attempt counter: each failure calls scheduleReconnect; a scheduled timer
fires, increments the counter, and the next attempt fails again; the
reconnect_failed outcome is terminal, since no timer is left to trigger
another attempt. -/
def failureRun (opts : WSOptions) : Nat → Nat → List ReconnectResult
  | _, 0 => []
  | a, n + 1 =>
    match scheduleReconnect opts a true with
    | .reconnectFailed => [.reconnectFailed]
    | .scheduled d => .scheduled d :: failureRun opts (a + 1) n

/-! ## Widget timers -/

/-- All timers the spec asks teardown to cancel: the manager's ping
interval and reconnect timer (inside wsState), the typing-debounce
timeout of MessageInput, and the module-level polling interval of the
store. -/
structure WidgetTimers where
  wsState : WSState
  typingTimeoutSet : Bool
  pollIntervalSet : Bool
deriving DecidableEq, Repr

/-- startMessagePolling clears any existing polling interval and starts
a new one. -/
def startMessagePollingTimers (w : WidgetTimers) : WidgetTimers :=
  { w with pollIntervalSet := true }

/-- Widget teardown as written in the source: the only cancellation code
reachable at teardown is wsManager.disconnect. MessageInput registers no
unmount cleanup for typingTimeoutRef (its only effect is the textarea
auto-resize, which has no cleanup), and no code outside
startMessagePolling ever calls clearInterval on pollingInterval, so both
flags survive. -/
def widgetTeardown (w : WidgetTimers) : WidgetTimers :=
  { w with wsState := wsDisconnect w.wsState }

/-! ## Typing debounce (MessageInput.handleChange) -/

/-- An outbound presence signal at an absolute time. -/
inductive TypingSignal where
  | start (t : Nat)
  | stop (t : Nat)
deriving DecidableEq, Repr

/-- The debounce loop of handleChange over a sorted list of input-event
times, carrying the pending timeout deadline: each input first lets an
expired pending timer fire (sendTyping(false)), then emits
sendTyping(true), clears the pending timer and schedules a new one
delay ms later; after the last input the pending timer fires. -/
def typingDebounce (delay : Nat) : List Nat → Option Nat → List TypingSignal
  | [], none => []
  | [], some d => [.stop d]
  | t :: rest, pending =>
    (match pending with
     | some d => if d ≤ t then [.stop d] else []
     | none => []) ++ .start t :: typingDebounce delay rest (some (t + delay))

/-- Signals emitted for a list of input times with the source's 2000 ms
debounce and no pending timer initially. -/
def typingTrace (inputs : List Nat) : List TypingSignal :=
  typingDebounce 2000 inputs none

/-- Count the start signals in a trace. -/
def countStart (sig : List TypingSignal) : Nat :=
  (sig.filter (fun s => match s with | .start _ => true | .stop _ => false)).length

/-- Count the stop signals in a trace. -/
def countStop (sig : List TypingSignal) : Nat :=
  (sig.filter (fun s => match s with | .start _ => false | .stop _ => true)).length

/-! ## Durable session store (the safe localStorage wrapper) -/

/-- The key namespace the wrapper puts in front of every key. -/
def omniNs : String := "omni_"

/-- Underlying localStorage: an association list of raw string entries,
plus a flag modelling storage being disabled or over quota, in which
state every native operation throws. -/
structure RawStorage where
  items : List (String × String)
  failing : Bool
deriving DecidableEq, Repr

/-- Native getItem: throws when storage fails, otherwise yields the
stored string or none. -/
def rawGetItem (st : RawStorage) (k : String) : Except String (Option String) :=
  if st.failing then .error "storage disabled" else .ok (st.items.lookup k)

/-- Native setItem: throws when storage fails, otherwise stores the
value under the key. -/
def rawSetItem (st : RawStorage) (k v : String) : Except String RawStorage :=
  if st.failing then .error "storage disabled"
  else .ok { st with items := (k, v) :: st.items.filter (fun p => p.1 ≠ k) }

/-- Native removeItem: throws when storage fails, otherwise drops the
key. -/
def rawRemoveItem (st : RawStorage) (k : String) : Except String RawStorage :=
  if st.failing then .error "storage disabled"
  else .ok { st with items := st.items.filter (fun p => p.1 ≠ k) }

/-- A try/catch whose handler resolves to a plain value, as the wrapper
methods do. -/
def tryCatch (body : Except String α) (handler : String → α) : α :=
  match body with
  | .ok v => v
  | .error e => handler e

/-- The try-block of storage.get: read the namespaced key and JSON-parse
it; a corrupt entry makes JSON.parse throw, modelled by the parse
function returning none. -/
def storageGetBody (parse : String → Option α) (st : RawStorage) (key : String) :
    Except String (Option α) :=
  match rawGetItem st (omniNs ++ key) with
  | .error e => .error e
  | .ok none => .ok none
  | .ok (some s) =>
    match parse s with
    | some v => .ok (some v)
    | none => .error "JSON parse error"

/-- storage.get with its catch: any failure resolves to null. -/
def storageGet (parse : String → Option α) (st : RawStorage) (key : String) : Option α :=
  tryCatch (storageGetBody parse st key) (fun _ => none)

/-- storage.set with its catch: on failure the entry is not written and
the call returns normally (a console warning is the only effect). -/
def storageSet (stringify : α → String) (st : RawStorage) (key : String) (value : α) :
    RawStorage :=
  tryCatch (rawSetItem st (omniNs ++ key) (stringify value)) (fun _ => st)

/-- storage.remove with its catch: errors are ignored. -/
def storageRemove (st : RawStorage) (key : String) : RawStorage :=
  tryCatch (rawRemoveItem st (omniNs ++ key)) (fun _ => st)

/-- storage.get viewed as a possibly-throwing computation including its
catch handler: used to state that the wrapper itself never throws. -/
def storageGetE (parse : String → Option α) (st : RawStorage) (key : String) :
    Except String (Option α) :=
  match storageGetBody parse st key with
  | .ok v => .ok v
  | .error _ => .ok none

/-- storage.set including its catch handler, as a possibly-throwing
computation. -/
def storageSetE (stringify : α → String) (st : RawStorage) (key : String) (value : α) :
    Except String RawStorage :=
  match rawSetItem st (omniNs ++ key) (stringify value) with
  | .ok st2 => .ok st2
  | .error _ => .ok st

/-- storage.remove including its catch handler, as a possibly-throwing
computation. -/
def storageRemoveE (st : RawStorage) (key : String) : Except String RawStorage :=
  match rawRemoveItem st (omniNs ++ key) with
  | .ok st2 => .ok st2
  | .error _ => .ok st

/-! ## Session resume (init) and prechat gating (ChatPage) -/

/-- A conversation handle as persisted by the store. -/
structure Conversation where
  id : String
  customerId : String
  createdAt : String
deriving DecidableEq, Repr

/-- The typed view of what init reads from durable storage: the
conversation entry (none when missing or corrupt) and the
prechat_completed flag. -/
structure PersistedState where
  conversation : Option Conversation
  prechatCompleted : Option Bool
deriving DecidableEq, Repr

/-- The observable outcome of the conversation-resume part of init. -/
structure InitOutcome where
  conversation : Option Conversation
  messages : List Message
  prechatCompleted : Bool
  error : Option String
  isLoading : Bool
  persistedAfter : PersistedState
  wsConnectedTo : Option String
deriving DecidableEq, Repr

/-- The resume portion of init: when a conversation was persisted, fetch
its message history; on success install the fetched list and connect the
socket for that conversation; on failure remove the persisted
conversation entry and reset conversation and messages, without touching
error. Afterwards the prechat flag is read with a default of false and
isLoading is cleared. -/
def initResume (st : PersistedState)
    (fetchMessages : String → Except String (List Message)) : InitOutcome :=
  match st.conversation with
  | none =>
    { conversation := none, messages := [],
      prechatCompleted := st.prechatCompleted.getD false,
      error := none, isLoading := false, persistedAfter := st, wsConnectedTo := none }
  | some conv =>
    match fetchMessages conv.id with
    | .ok msgs =>
      { conversation := some conv, messages := msgs,
        prechatCompleted := st.prechatCompleted.getD false,
        error := none, isLoading := false, persistedAfter := st,
        wsConnectedTo := some conv.id }
    | .error _ =>
      { conversation := none, messages := [],
        prechatCompleted := st.prechatCompleted.getD false,
        error := none, isLoading := false,
        persistedAfter := { st with conversation := none }, wsConnectedTo := none }

/-- ChatPage renders the pre-chat form exactly when a name or email is
required, prechat was not completed, and no conversation exists. -/
def needsPrechat (requiresEmail requiresName prechatCompleted : Bool)
    (conversation : Option Conversation) : Bool :=
  (requiresEmail || requiresName) && !prechatCompleted && !conversation.isSome

/-! ## Sample data used by concrete instances -/

/-- A server-confirmed copy of the visitor message, as the duplex channel
would push it. -/
def srv42Msg : Message :=
  { id := "srv-42", senderType := "customer", contentType := "text"
    content := { text := some "Hello", url := none, fileName := none }
    createdAt := "t1" }

/-- A first agent message. -/
def agentMsg : Message :=
  { id := "srv-7", senderType := "operator", contentType := "text"
    content := { text := some "Hi there", url := none, fileName := none }
    createdAt := "t2" }

/-- A second agent message. -/
def agentMsg2 : Message :=
  { id := "srv-8", senderType := "operator", contentType := "text"
    content := { text := some "Anything else?", url := none, fileName := none }
    createdAt := "t3" }

/-- A persisted conversation handle. -/
def convA : Conversation :=
  { id := "conv-1", customerId := "cust-1", createdAt := "t0" }

/-- A widget with every cancellable timer pending: heartbeat, reconnect
backoff, typing debounce, and poll interval. -/
def allTimersPending : WidgetTimers :=
  { wsState :=
      { wsPresent := true, wsOpen := true, conversationId := some "conv-1"
        reconnectAttempts := 0, reconnectTimeoutSet := true, pingTimeoutSet := true
        isConnecting := false, shouldReconnect := true }
    typingTimeoutSet := true
    pollIntervalSet := true }

/-! ## Helper lemmas -/

theorem msgIds_append (a b : List Message) :
    msgIds (a ++ b) = msgIds a ++ msgIds b := by
  simp [msgIds]

theorem nodupB_iff (l : List String) : nodupB l = true ↔ l.Nodup := by
  induction l with
  | nil => simp [nodupB]
  | cons x xs ih => simp [nodupB, List.nodup_cons, ih]

theorem msgIds_confirm (s : SessionState) (t i ca : String) :
    msgIds (confirmMessage s t i ca).messages =
      (msgIds s.messages).map (fun x => if x = t then i else x) := by
  simp only [confirmMessage, msgIds, List.map_map]
  congr 1
  funext m
  by_cases h : m.id = t <;> simp [h]

theorem nodup_map_replace (ids : List String) (t i : String)
    (hn : ids.Nodup) (hi : i ∉ ids) :
    (ids.map (fun x => if x = t then i else x)).Nodup := by
  induction ids with
  | nil => simp
  | cons x xs ih =>
    rw [List.nodup_cons] at hn
    rw [List.map_cons, List.nodup_cons]
    have hix : i ≠ x := fun h => hi (h ▸ List.mem_cons_self x xs)
    have hixs : i ∉ xs := fun h => hi (List.mem_cons_of_mem x h)
    refine ⟨?_, ih hn.2 hixs⟩
    intro hmem
    rw [List.mem_map] at hmem
    obtain ⟨y, hy, hxy⟩ := hmem
    by_cases hyt : y = t
    · rw [if_pos hyt] at hxy
      by_cases hxt : x = t
      · have hxey : x = y := by rw [hxt, hyt]
        exact hn.1 (hxey ▸ hy)
      · rw [if_neg hxt] at hxy
        exact hix hxy
    · rw [if_neg hyt] at hxy
      by_cases hxt : x = t
      · rw [if_pos hxt] at hxy
        exact hixs (hxy ▸ hy)
      · rw [if_neg hxt] at hxy
        exact hn.1 (hxy ▸ hy)

theorem nodup_append_fresh (msgs : List Message) (m : Message)
    (hn : (msgIds msgs).Nodup) (hm : m.id ∉ msgIds msgs) :
    (msgIds (msgs ++ [m])).Nodup := by
  rw [msgIds_append]
  have : msgIds [m] = [m.id] := by simp [msgIds]
  rw [this]
  simp [List.nodup_append, hn, hm]

theorem applyOp_nodup (s : SessionState) (op : SyncOp)
    (hnd : (msgIds s.messages).Nodup)
    (hop : (match op with
            | .send t _ _ => !(msgIds s.messages).contains t
            | .confirm _ i _ => !(msgIds s.messages).contains i
            | .push _ => true
            | .refresh l => nodupB (msgIds l)) = true) :
    (msgIds (applyOp s op).messages).Nodup := by
  cases op with
  | send t c n =>
    have ht : t ∉ msgIds s.messages := by simpa using hop
    have := nodup_append_fresh s.messages (optimisticMessage t c n) hnd
      (by simpa [optimisticMessage] using ht)
    simpa [applyOp, sendMessageAppend] using this
  | confirm t i ca =>
    have hi : i ∉ msgIds s.messages := by simpa using hop
    have : msgIds (applyOp s (.confirm t i ca)).messages =
        (msgIds s.messages).map (fun x => if x = t then i else x) := by
      simpa [applyOp] using msgIds_confirm s t i ca
    rw [this]
    exact nodup_map_replace _ t i hnd hi
  | push m =>
    cases h : s.messages.any (fun x => x.id = m.id) with
    | true => simpa [applyOp, addMessage, h] using hnd
    | false =>
      have hfresh : m.id ∉ msgIds s.messages := by
        intro hmem
        rw [msgIds, List.mem_map] at hmem
        obtain ⟨x, hx, hxid⟩ := hmem
        simp [List.any_eq_false] at h
        exact h x hx hxid
      have := nodup_append_fresh s.messages m hnd hfresh
      simpa [applyOp, addMessage, h] using this
  | refresh l =>
    have := (nodupB_iff _).1 hop
    simpa [applyOp, loadMessagesSuccess] using this

theorem failureRun_get (opts : WSOptions) :
    ∀ n a k : Nat, k < n → a + k < opts.maxReconnectAttempts →
      (failureRun opts a n)[k]? =
        some (.scheduled (min (opts.reconnectDelay * 2 ^ (a + k)) 30000)) := by
  intro n
  induction n with
  | zero => intro a k hk _; exact absurd hk (Nat.not_lt_zero k)
  | succ m ih =>
    intro a k hk ha
    have hlt : ¬ opts.maxReconnectAttempts ≤ a := by omega
    have hsched : scheduleReconnect opts a true =
        .scheduled (min (opts.reconnectDelay * 2 ^ a) 30000) := by
      simp [scheduleReconnect, hlt]
    rw [failureRun, hsched]
    cases k with
    | zero => simp
    | succ k2 =>
      rw [List.getElem?_cons_succ]
      have heq : a + (k2 + 1) = (a + 1) + k2 := by omega
      rw [heq]
      exact ih (a + 1) k2 (by omega) (by omega)

/-! ## Claim theorems -/

/-- C1, counterexample: the duplicate-id invariant fails as stated. From
the empty session, an optimistic send with temporary id tmp-1, then a
transport push of the confirmed message srv-42, then the send
confirmation replacing tmp-1 by srv-42 leaves srv-42 in the list twice:
the confirmation branch maps ids without checking whether the new id is
already present. -/
theorem c1_counterexample :
    msgIds (runOps initialSession
      [.send "tmp-1" "Hello" "t0", .push srv42Msg,
       .confirm "tmp-1" "srv-42" "t1"]).messages = ["srv-42", "srv-42"] ∧
    ¬ (msgIds (runOps initialSession
      [.send "tmp-1" "Hello" "t0", .push srv42Msg,
       .confirm "tmp-1" "srv-42" "t1"]).messages).Nodup := by
  constructor
  · decide
  · decide

/-- C1, amended: for every sequence of interleaved optimistic sends,
confirmations, incoming pushes and wholesale refreshes, the resulting
message list contains each id at most once, provided the trace is
admissible: each send uses a fresh temporary id, each refresh delivers a
duplicate-free server list, and no confirmation installs a server id
that is already present in the list at the moment it applies. -/
theorem c1_no_duplicate_ids (ops : List SyncOp) :
    ∀ s : SessionState, admissibleFrom s ops = true →
      (msgIds s.messages).Nodup →
      (msgIds (runOps s ops).messages).Nodup := by
  induction ops with
  | nil =>
    intro s _ hnd
    simpa [runOps] using hnd
  | cons op rest ih =>
    intro s hadm hnd
    simp only [admissibleFrom, Bool.and_eq_true] at hadm
    have h1 := applyOp_nodup s op hnd hadm.1
    have h2 := ih (applyOp s op) hadm.2 h1
    simpa [runOps] using h2

/-- C1 witness: the scenario of the spec — send tmp-1, confirm it as
srv-42, then receive a duplicate push of srv-42 — is admissible and ends
with a duplicate-free list. -/
theorem c1_witness :
    admissibleFrom initialSession
      [.send "tmp-1" "Hello" "t0", .confirm "tmp-1" "srv-42" "t1",
       .push srv42Msg] = true ∧
    (msgIds (runOps initialSession
      [.send "tmp-1" "Hello" "t0", .confirm "tmp-1" "srv-42" "t1",
       .push srv42Msg]).messages).Nodup :=
  ⟨by decide,
   c1_no_duplicate_ids
     [.send "tmp-1" "Hello" "t0", .confirm "tmp-1" "srv-42" "t1", .push srv42Msg]
     initialSession (by decide) (by decide)⟩

/-- C2: when a message with the temporary id is present, the send
confirmation rewrites that entry in place — the list keeps its length,
every position holds the same message except that entries whose id is
the temporary id get the server id and timestamp, and nothing is
appended. -/
theorem c2_confirm_replaces_in_place (s : SessionState) (t sid sca : String)
    (_hpresent : t ∈ msgIds s.messages) :
    (confirmMessage s t sid sca).messages.length = s.messages.length ∧
    ∀ i : Nat, ∀ m : Message, s.messages[i]? = some m →
      (confirmMessage s t sid sca).messages[i]? =
        some (if m.id = t then { m with id := sid, createdAt := sca } else m) := by
  constructor
  · simp [confirmMessage]
  · intro i m hm
    simp [confirmMessage, List.getElem?_map, hm]

/-- C2 witness: confirming tmp-1 as srv-42 in a two-message list leaves
position 0 unchanged and rewrites position 1 in place. -/
theorem c2_witness :
    ("tmp-1" ∈ msgIds (SessionState.mk
        [agentMsg, optimisticMessage "tmp-1" "Hello" "t0"] true none).messages) ∧
    (confirmMessage (SessionState.mk
        [agentMsg, optimisticMessage "tmp-1" "Hello" "t0"] true none)
        "tmp-1" "srv-42" "t1").messages.length = 2 ∧
    (confirmMessage (SessionState.mk
        [agentMsg, optimisticMessage "tmp-1" "Hello" "t0"] true none)
        "tmp-1" "srv-42" "t1").messages[0]? = some agentMsg :=
  ⟨by decide,
   (c2_confirm_replaces_in_place
      (SessionState.mk [agentMsg, optimisticMessage "tmp-1" "Hello" "t0"] true none)
      "tmp-1" "srv-42" "t1" (by decide)).1,
   by
     have h := (c2_confirm_replaces_in_place
       (SessionState.mk [agentMsg, optimisticMessage "tmp-1" "Hello" "t0"] true none)
       "tmp-1" "srv-42" "t1" (by decide)).2 0 agentMsg (by decide)
     simpa [agentMsg] using h⟩

/-- C3, counterexample: after exactly maxAttempts (10) consecutive
connection failures with default options the manager has not emitted
reconnect_failed — each of the 10 failures scheduled another reconnect,
the 10th with the capped 30 s delay — so the terminal event does not
follow the 10th failure as the claim states. -/
theorem c3_counterexample :
    ReconnectResult.reconnectFailed ∉ failureRun defaultWSOptions 0 10 ∧
    (failureRun defaultWSOptions 0 10).length = 10 ∧
    (failureRun defaultWSOptions 0 10)[9]? = some (.scheduled 30000) := by
  refine ⟨by decide, by decide, by decide⟩

/-- C3, amended: in a run of consecutive failures with default options
the Nth failure (1 ≤ N ≤ 10) schedules the Nth reconnect with delay
min(1000·2^(N−1), 30000) ms, and the failure of the 10th scheduled
reconnect — the 11th consecutive failure — emits reconnect_failed and
schedules nothing further. -/
theorem c3_backoff_and_exhaustion :
    (∀ N : Nat, 1 ≤ N → N ≤ 10 →
      (failureRun defaultWSOptions 0 11)[N - 1]? =
        some (.scheduled (min (1000 * 2 ^ (N - 1)) 30000))) ∧
    (failureRun defaultWSOptions 0 11)[10]? = some .reconnectFailed ∧
    (failureRun defaultWSOptions 0 11).length = 11 := by
  refine ⟨fun N h1 h10 => ?_, by decide, by decide⟩
  have h := failureRun_get defaultWSOptions 11 0 (N - 1) (by omega)
    (by simp [defaultWSOptions]; omega)
  simpa [defaultWSOptions] using h

/-- C3 witness: the 6th failure schedules the capped 30 s delay, not
32 s. -/
theorem c3_witness :
    (failureRun defaultWSOptions 0 11)[5]? =
      some (.scheduled (min (1000 * 2 ^ 5) 30000)) :=
  c3_backoff_and_exhaustion.1 6 (by decide) (by decide)

/-- C4, counterexample: with the manager mid-connection for conversation
c1, a connect call for the different conversation c2 returns with the
state unchanged — still connecting to c1 — because the isConnecting
short-circuit ignores the requested id, contradicting the claim that
connect is a no-op only for the same id. -/
theorem c4_counterexample :
    (wsConnect idleWS "c1").isConnecting = true ∧
    (wsConnect idleWS "c1").conversationId = some "c1" ∧
    wsConnect (wsConnect idleWS "c1") "c2" = wsConnect idleWS "c1" := by
  refine ⟨by decide, by decide, by decide⟩

/-- C4, amended: connect(c) is a no-op exactly when the manager is
already in a connection attempt (for any id) or still holds a socket
object — open or dead — for the same id c (so a connect(c) after the
retry budget was exhausted for c is also a no-op); in every other state
it tears down the existing connection and starts a fresh connecting
attempt for c with the retry counter reset and reconnection re-armed. -/
theorem c4_connect_guard (s : WSState) (c : String) :
    ((s.isConnecting = true ∨ (s.wsPresent = true ∧ s.conversationId = some c)) →
      wsConnect s c = s) ∧
    (s.isConnecting = false → (s.wsPresent = false ∨ s.conversationId ≠ some c) →
      wsConnect s c =
        { wsPresent := true, wsOpen := false, conversationId := some c,
          reconnectAttempts := 0, reconnectTimeoutSet := false, pingTimeoutSet := false,
          isConnecting := true, shouldReconnect := true }) := by
  constructor
  · rintro (h | ⟨h1, h2⟩)
    · simp [wsConnect, h]
    · simp [wsConnect, h1, h2]
  · intro h1 h2
    have hcond : (s.isConnecting || (s.wsPresent && s.conversationId == some c)) = false := by
      rcases h2 with h | h
      · simp [h1, h]
      · have : (s.conversationId == some c) = false := by
          simpa using h
        simp [h1, this]
    have hne : ¬ (s.isConnecting || (s.wsPresent && s.conversationId == some c)) = true := by
      simp [hcond]
    unfold wsConnect
    rw [if_neg hne]
    simp [wsDisconnect, wsDoConnect, h1]

/-- C4 witness: from the idle manager, connect starts a connecting
attempt for the requested conversation. -/
theorem c4_witness :
    wsConnect idleWS "c1" =
      { wsPresent := true, wsOpen := false, conversationId := some "c1",
        reconnectAttempts := 0, reconnectTimeoutSet := false, pingTimeoutSet := false,
        isConnecting := true, shouldReconnect := true } :=
  (c4_connect_guard idleWS "c1").2 (by decide) (Or.inl (by decide))

/-- C5: when the backend send fails, the catch branch removes the
optimistic message, clears the sending flag and records the error; with
a fresh temporary id the list is exactly the pre-send list again, so all
other messages are untouched, and the failure handler performs no
further send (the whole effect of the catch branch is this one state
update — the message is not retried). -/
theorem c5_send_failure_rolls_back (s : SessionState) (t c now e : String)
    (hfresh : t ∉ msgIds s.messages) :
    (sendMessageFailure (sendMessageAppend s t c now) t e).messages = s.messages ∧
    (sendMessageFailure (sendMessageAppend s t c now) t e).isSending = false ∧
    (sendMessageFailure (sendMessageAppend s t c now) t e).error = some e := by
  refine ⟨?_, rfl, rfl⟩
  simp only [sendMessageFailure, sendMessageAppend, List.filter_append]
  have h1 : s.messages.filter (fun m => m.id ≠ t) = s.messages := by
    rw [List.filter_eq_self]
    intro m hm
    simp only [decide_eq_true_eq, ne_eq]
    intro heq
    exact hfresh (heq ▸ List.mem_map_of_mem Message.id hm)
  have h2 : [optimisticMessage t c now].filter (fun m => m.id ≠ t) = [] := by
    simp [optimisticMessage]
  rw [h1, h2, List.append_nil]

/-- C5 witness: a failed send from a one-message session restores
exactly that message list. -/
theorem c5_witness :
    (sendMessageFailure
      (sendMessageAppend (SessionState.mk [agentMsg] false none) "tmp-9" "Hi" "t5")
      "tmp-9" "network down").messages = [agentMsg] :=
  (c5_send_failure_rolls_back (SessionState.mk [agentMsg] false none)
    "tmp-9" "Hi" "t5" "network down" (by decide)).1

/-- C6: initializing with a persisted conversation and a history fetch
that succeeds installs exactly the fetched message list, keeps the
conversation, and never renders the pre-chat form (ChatPage suppresses
it whenever a conversation exists); a failing fetch clears the persisted
conversation entry and yields a fresh session — conversation null,
messages empty, no error, loading finished. -/
theorem c6_session_resume (st : PersistedState) (conv : Conversation)
    (fetch : String → Except String (List Message))
    (hconv : st.conversation = some conv) :
    (∀ msgs, fetch conv.id = .ok msgs →
      initResume st fetch =
        { conversation := some conv, messages := msgs,
          prechatCompleted := st.prechatCompleted.getD false,
          error := none, isLoading := false, persistedAfter := st,
          wsConnectedTo := some conv.id } ∧
      ∀ re rn : Bool,
        needsPrechat re rn (initResume st fetch).prechatCompleted
          (initResume st fetch).conversation = false) ∧
    (∀ e, fetch conv.id = .error e →
      (initResume st fetch).conversation = none ∧
      (initResume st fetch).messages = [] ∧
      (initResume st fetch).persistedAfter = { st with conversation := none } ∧
      (initResume st fetch).error = none ∧
      (initResume st fetch).isLoading = false) := by
  constructor
  · intro msgs hok
    have h1 : initResume st fetch =
        { conversation := some conv, messages := msgs,
          prechatCompleted := st.prechatCompleted.getD false,
          error := none, isLoading := false, persistedAfter := st,
          wsConnectedTo := some conv.id } := by
      simp [initResume, hconv, hok]
    refine ⟨h1, ?_⟩
    intro re rn
    rw [h1]
    simp [needsPrechat]
  · intro e herr
    simp [initResume, hconv, herr]

/-- C6 witness: resuming with a stored conversation and a fetch yielding
one agent message reproduces that list; a failing fetch drops the
persisted conversation. -/
theorem c6_witness :
    initResume (PersistedState.mk (some convA) (some true)) (fun _ => .ok [agentMsg]) =
      { conversation := some convA, messages := [agentMsg], prechatCompleted := true,
        error := none, isLoading := false,
        persistedAfter := PersistedState.mk (some convA) (some true),
        wsConnectedTo := some convA.id } ∧
    (initResume (PersistedState.mk (some convA) (some true))
        (fun _ => .error "stale")).conversation = none ∧
    (initResume (PersistedState.mk (some convA) (some true))
        (fun _ => .error "stale")).persistedAfter =
      PersistedState.mk none (some true) :=
  ⟨((c6_session_resume (PersistedState.mk (some convA) (some true)) convA
      (fun _ => .ok [agentMsg]) rfl).1 [agentMsg] rfl).1,
   ((c6_session_resume (PersistedState.mk (some convA) (some true)) convA
      (fun _ => .error "stale") rfl).2 "stale" rfl).1,
   ((c6_session_resume (PersistedState.mk (some convA) (some true)) convA
      (fun _ => .error "stale") rfl).2 "stale" rfl).2.2.1⟩

/-- C7, counterexample: for input events at t = 0, 500 and 900 ms the
handler emits typing_start on every keystroke — three times — not
exactly once as the claim states. -/
theorem c7_counterexample :
    countStart (typingTrace [0, 500, 900]) = 3 ∧
    countStart (typingTrace [0, 500, 900]) ≠ 1 := by
  refine ⟨by decide, by decide⟩

/-- C7, amended: for the trace with local changes at t = 0, 500 and
900 ms and silence thereafter, exactly one typing_stop fires, at
t = 2900 ms, while typing_start fires on every input change — at t = 0,
500 and 900 ms. -/
theorem c7_typing_debounce :
    typingTrace [0, 500, 900] =
      [.start 0, .start 500, .start 900, .stop 2900] ∧
    countStop (typingTrace [0, 500, 900]) = 1 ∧
    countStart (typingTrace [0, 500, 900]) = 3 := by
  refine ⟨by decide, by decide, by decide⟩

/-- C8: the claim states that disconnect and widget teardown cancel all
four pending timers, and the spec calls a failure to do so a defect.
The code cancels only the manager's heartbeat interval and reconnect
timeout; with every timer pending, teardown leaves the typing-debounce
timeout and the message-poll interval scheduled, because MessageInput
registers no unmount cleanup for typingTimeoutRef and nothing outside
startMessagePolling ever clears pollingInterval. -/
theorem c8_teardown_timer_leak :
    (widgetTeardown allTimersPending).wsState.pingTimeoutSet = false ∧
    (widgetTeardown allTimersPending).wsState.reconnectTimeoutSet = false ∧
    (widgetTeardown allTimersPending).typingTimeoutSet = true ∧
    (widgetTeardown allTimersPending).pollIntervalSet = true := by
  refine ⟨by decide, by decide, by decide, by decide⟩

/-- C9: the storage wrapper never lets an exception reach the caller:
get, set and remove, modelled with their try/catch included, always
resolve to a normal result; when the underlying storage is failing, get
yields null and set and remove leave the store untouched so the page
continues with memory-only state; and a missing or unparsable entry
makes get yield null. -/
theorem c9_storage_never_throws {α : Type} (parse : String → Option α)
    (stringify : α → String) (st : RawStorage) (key : String) (value : α) :
    storageGetE parse st key = .ok (storageGet parse st key) ∧
    storageSetE stringify st key value = .ok (storageSet stringify st key value) ∧
    storageRemoveE st key = .ok (storageRemove st key) ∧
    (st.failing = true →
      storageGet parse st key = none ∧
      storageSet stringify st key value = st ∧
      storageRemove st key = st) ∧
    (rawGetItem st (omniNs ++ key) = .ok none → storageGet parse st key = none) ∧
    (∀ s, rawGetItem st (omniNs ++ key) = .ok (some s) → parse s = none →
      storageGet parse st key = none) := by
  refine ⟨?_, ?_, ?_, ?_, ?_, ?_⟩
  · cases h : storageGetBody parse st key <;>
      simp [storageGetE, storageGet, tryCatch, h]
  · cases h : rawSetItem st (omniNs ++ key) (stringify value) <;>
      simp [storageSetE, storageSet, tryCatch, h]
  · cases h : rawRemoveItem st (omniNs ++ key) <;>
      simp [storageRemoveE, storageRemove, tryCatch, h]
  · intro hf
    refine ⟨?_, ?_, ?_⟩ <;>
      simp [storageGet, storageSet, storageRemove, tryCatch, storageGetBody,
            rawGetItem, rawSetItem, rawRemoveItem, hf]
  · intro h
    simp [storageGet, tryCatch, storageGetBody, h]
  · intro s h hp
    simp [storageGet, tryCatch, storageGetBody, h, hp]

/-- C9 witness: with storage disabled, reading the conversation key
returns null instead of raising. -/
theorem c9_witness :
    (RawStorage.mk [] true).failing = true ∧
    storageGet (fun _ => (none : Option Nat)) (RawStorage.mk [] true) "conversation" = none :=
  ⟨rfl,
   ((c9_storage_never_throws (fun _ => (none : Option Nat)) (fun _ => "")
      (RawStorage.mk [] true) "conversation" 0).2.2.2.1 rfl).1⟩

/-- C10: there is an interleaving that silently loses a successfully
sent message: after the optimistic append of tmp-1, a loadMessages
completion replaces the list wholesale with the server list (which does
not yet contain the in-flight message), dropping tmp-1; the confirmation
that then arrives maps over a list with no tmp-1 entry and changes
nothing, so the message is gone although its send succeeded. The poll
tick does the same whenever the fetched list is strictly longer than
the local one. -/
theorem c10_refresh_drops_inflight_send :
    msgIds (sendMessageAppend initialSession "tmp-1" "Hello" "t0").messages = ["tmp-1"] ∧
    (loadMessagesSuccess
      (sendMessageAppend initialSession "tmp-1" "Hello" "t0") []).messages = [] ∧
    (confirmMessage
      (loadMessagesSuccess (sendMessageAppend initialSession "tmp-1" "Hello" "t0") [])
      "tmp-1" "srv-42" "t1").messages =
      (loadMessagesSuccess
        (sendMessageAppend initialSession "tmp-1" "Hello" "t0") []).messages ∧
    (confirmMessage
      (loadMessagesSuccess (sendMessageAppend initialSession "tmp-1" "Hello" "t0") [])
      "tmp-1" "srv-42" "t1").messages = [] ∧
    (pollTick (sendMessageAppend initialSession "tmp-1" "Hello" "t0")
      [agentMsg, agentMsg2]).messages = [agentMsg, agentMsg2] ∧
    "tmp-1" ∉ msgIds (pollTick (sendMessageAppend initialSession "tmp-1" "Hello" "t0")
      [agentMsg, agentMsg2]).messages ∧
    (confirmMessage
      (pollTick (sendMessageAppend initialSession "tmp-1" "Hello" "t0")
        [agentMsg, agentMsg2]) "tmp-1" "srv-42" "t1").messages =
      [agentMsg, agentMsg2] := by
  refine ⟨by decide, by decide, by decide, by decide, by decide, by decide, by decide⟩

end OmniSupport
